import Mathlib

/-!
Shallow embedding of the agent-routing and conversational-dispatch core of the
Synermind wellness-chat application (files `main_ui.py`, `router.py`,
`llm_tools.py`).  Python strings are Lean `String`s, machine side effects are
explicit state passing, and every remote call (router LLM, agent invocation,
SendGrid delivery) is an oracle parameter so that the control flow of the
source is captured exactly.
-/

/-- Python `str.lower()` restricted to ASCII, matching the characters the
crisis keyword list and error classifiers actually inspect. -/
def pyLower (s : String) : String := ⟨s.data.map Char.toLower⟩

/-- Helper: the first list is a prefix of the second (Boolean, executable). -/
def charsPrefixOf : List Char → List Char → Bool
  | [], _ => true
  | _ :: _, [] => false
  | n :: ns, h :: hs => n = h && charsPrefixOf ns hs

/-- Helper: the first list occurs contiguously inside the second. -/
def charsInfixOf (needle : List Char) : List Char → Bool
  | [] => charsPrefixOf needle []
  | h :: hs => charsPrefixOf needle (h :: hs) || charsInfixOf needle hs

/-- Python `needle in haystack` substring test on strings. -/
def pyContains (needle haystack : String) : Bool :=
  charsInfixOf needle.data haystack.data

/-- Python whitespace class for `str.strip` (ASCII part of `\s`). -/
def pyIsSpace (c : Char) : Bool :=
  c = ' ' || c = '\t' || c = '\n' || c = '\r' || c = '\x0b' || c = '\x0c'

/-- Python `str.strip()`: drop whitespace from both ends. -/
def pyStrip (s : String) : String :=
  ⟨((s.data.dropWhile pyIsSpace).reverse.dropWhile pyIsSpace).reverse⟩

/-- Python `str.replace(".", "")`: remove every period character. -/
def pyRemoveDots (s : String) : String := ⟨s.data.filter (fun c => c ≠ '.')⟩

/-- Python `str.count("?")`: number of occurrences of a single character. -/
def pyCountChar (c : Char) (s : String) : Nat := s.data.count c

/-- CRISIS_KEYWORDS from `llm_tools.py`. -/
def CRISIS_KEYWORDS : List String :=
  ["suicide", "kill myself", "end my life", "self-harm",
   "hurt myself", "want to die", "i\x27m going to die"]

/-- contains_crisis_keywords from `llm_tools.py`: lowercase the text and test
each keyword as a substring. -/
def contains_crisis_keywords (text : String) : Bool :=
  CRISIS_KEYWORDS.any (fun kw => pyContains kw (pyLower text))

/-- Allowed router labels (`_ALLOWED` in `router.py`). -/
def ALLOWED_LABELS : List String := ["mood", "therapy", "routine", "crisis"]

/-- Function _normalize_label from `router.py`: strip, lowercase, delete periods, and
fall back to "mood" when the result is outside the closed label set. -/
def normalize_label (text : String) : String :=
  let out := pyRemoveDots (pyLower (pyStrip text))
  if out ∈ ALLOWED_LABELS then out else "mood"

/-- Observable outcome of one `_RouterChainAdapter.run` call: the returned
label and whether the remote LLM chain was invoked. -/
structure RouterOutput where
  label : String
  remoteInvoked : Bool
deriving DecidableEq

/-- Method run of _RouterChainAdapter from `router.py`.  `remote` is the outcome of the
remote `_chain.run` call (`Except.error` models a raised exception); it is
consulted only when no crisis keyword matches. -/
def routerRun (remote : Except String String) (userInput : String) : RouterOutput :=
  if contains_crisis_keywords userInput then ⟨"crisis", false⟩
  else
    match remote with
    | Except.ok out => ⟨normalize_label out, true⟩
    | Except.error _ => ⟨"mood", true⟩

example : contains_crisis_keywords "I want to END my life" = true := by decide
example : contains_crisis_keywords "hello there" = false := by decide
example : normalize_label "  Crisis. " = "crisis" := by decide
example : normalize_label "banana" = "mood" := by decide
example : routerRun (Except.error "boom") "hello" = ⟨"mood", true⟩ := by decide

/-- Word character for the word-boundary `\b` of the regex in
`estimate_intensity_from_text` (ASCII `\w`). -/
def isWordChar (c : Char) : Bool := c.isAlphanum || c = '_'

/-- A `\b` boundary holds before the current position: start of text or a
non-word previous character. -/
def boundaryBefore (prev : Option Char) : Bool :=
  match prev with
  | none => true
  | some p => !isWordChar p

/-- A `\b` boundary holds after the matched digits: end of text or a non-word
next character. -/
def boundaryAfter : List Char → Bool
  | [] => true
  | c :: _ => !isWordChar c

/-- Left-to-right scan implementing the regex search for a standalone digit,
pattern `\b([1-9]|10)\b`, over the lowered text: at each
position with a word boundary before it, first try a single digit 1-9 followed
by a boundary, then the literal "10" followed by a boundary; otherwise advance
one character. -/
def scan_standalone_num : Option Char → List Char → Option Nat
  | _, [] => none
  | prev, c :: rest =>
    if boundaryBefore prev = true ∧ '1' ≤ c ∧ c ≤ '9' then
      if boundaryAfter rest then some (c.toNat - '0'.toNat)
      else if c = '1' then
        match rest with
        | '0' :: rest2 =>
          if boundaryAfter rest2 then some 10 else scan_standalone_num (some c) rest
        | _ => scan_standalone_num (some c) rest
      else scan_standalone_num (some c) rest
    else scan_standalone_num (some c) rest

/-- High-intensity keyword family from `estimate_intensity_from_text`. -/
def HIGH_INTENSITY_KEYWORDS : List String :=
  ["very", "extremely", "overwhelmed", "panic", "panic attack", "terrified",
   "intense", "severe", "horrible"]

/-- Intermediate keyword family from `estimate_intensity_from_text`. -/
def MED_HIGH_INTENSITY_KEYWORDS : List String :=
  ["anxious", "anxiety", "stressed", "panic", "scared", "worried"]

/-- Low-intensity keyword family from `estimate_intensity_from_text`. -/
def LOW_INTENSITY_KEYWORDS : List String :=
  ["bit", "little", "slightly", "calm", "okay", "fine", "neutral"]

/-- Keyword-and-punctuation score of `estimate_intensity_from_text` (the path
taken when the digit regex finds no match), on the lowered text `t`.  The four
`for` loops of the source each take `max`/`min` with a constant, so they
reduce to one conditional per family, applied in source order. -/
def intensity_keyword_score (t : String) : Nat :=
  let score : Nat := 5
  let score := if HIGH_INTENSITY_KEYWORDS.any (fun kw => pyContains kw t) then max score 8 else score
  let score := if MED_HIGH_INTENSITY_KEYWORDS.any (fun kw => pyContains kw t) then max score 6 else score
  let score := if LOW_INTENSITY_KEYWORDS.any (fun kw => pyContains kw t) then min score 3 else score
  let score := if pyContains "!!!" t || pyContains "!!" t then min 10 (score + 2) else score
  let score := if 2 ≤ pyCountChar '?' t ∧ score < 8 then score + 1 else score
  score

/-- estimate_intensity_from_text from `main_ui.py`: empty text is 5; a
standalone digit 1-9 or literal 10 is used directly (clamped); otherwise the
keyword heuristic applies, with a final clamp to [1,10]. -/
def estimate_intensity_from_text (text : String) : Nat :=
  if text = "" then 5
  else
    let t := pyLower text
    match scan_standalone_num none t.data with
    | some v => max 1 (min 10 v)
    | none => max 1 (min 10 (intensity_keyword_score t))

example : estimate_intensity_from_text "I am extremely anxious!!!" = 10 := by decide
example : estimate_intensity_from_text "feeling a little calm" = 3 := by decide
example : estimate_intensity_from_text "stress level 7 today" = 7 := by decide
example : estimate_intensity_from_text "about 10 out of 10" = 10 := by decide
example : estimate_intensity_from_text "100 things" = 5 := by decide
example : estimate_intensity_from_text "" = 5 := by decide

/-- Character class `[^@\s]` of the recipient-validation regex. -/
def notAtOrSpace (c : Char) : Bool := c ≠ '@' && !pyIsSpace c

/-- After the mandatory `.` of the regex: one more `[^@\s]` character must
follow (the match is a prefix match, so one suffices). -/
def emailAfterDot : List Char → Bool
  | [] => false
  | c :: _ => notAtOrSpace c

/-- Tail of the regex after consuming at least one `[^@\s]` character past the
`@`: either use a `.` here as the literal dot (if a valid character follows)
or keep consuming `[^@\s]` characters; disjunction models backtracking. -/
def emailAfterB : List Char → Bool
  | [] => false
  | '.' :: rest => emailAfterDot rest || emailAfterB rest
  | c :: rest => notAtOrSpace c && emailAfterB rest

/-- Part of the regex after the `@`: at least one `[^@\s]` character, then a
literal `.`, then at least one `[^@\s]` character. -/
def emailTail : List Char → Bool
  | [] => false
  | c :: rest => notAtOrSpace c && emailAfterB rest

/-- Part of the regex before the `@`, after at least one `[^@\s]` character
has been consumed: `[^@\s]+` cannot contain `@`, so the first `@` of the text
must be the literal `@` of the pattern. -/
def emailAfterA : List Char → Bool
  | [] => false
  | '@' :: rest => emailTail rest
  | c :: rest => notAtOrSpace c && emailAfterA rest

/-- The check `re.match(r"[^@\s]+@[^@\s]+\.[^@\s]+", s)` viewed as a Boolean: an
anchored prefix match of `[^@\s]+ @ [^@\s]+ . [^@\s]+`.  Used both by
`_looks_like_email` inside `send_email` and inline in `tool_send_alert`. -/
def looks_like_email (s : String) : Bool :=
  match s.data with
  | [] => false
  | c :: rest => notAtOrSpace c && emailAfterA rest

example : looks_like_email "alice@example.com" = true := by decide
example : looks_like_email "a@b.c extra words" = true := by decide
example : looks_like_email "555-1234" = false := by decide
example : looks_like_email "a@b" = false := by decide
example : looks_like_email "a@.c" = false := by decide
example : looks_like_email "@b.c" = false := by decide
example : looks_like_email "" = false := by decide

/-- Result dictionary of `send_email` (`{"ok": ..., "error": ...}`; the error
string is empty on success). -/
structure EmailResult where
  ok : Bool
  errorText : String
deriving DecidableEq

/-- send_email from `llm_tools.py`, with the SendGrid call abstracted: reject
a recipient that fails `_looks_like_email`; when SendGrid credentials are
configured, the delivery outcome is the `sendgrid` oracle; otherwise report
the missing-configuration error. -/
def send_email (configured : Bool) (sendgrid : EmailResult) (toEmail : String) : EmailResult :=
  if !looks_like_email toEmail then
    ⟨false, "Recipient does not appear to be an email address."⟩
  else if configured then sendgrid
  else ⟨false, "SendGrid API Key or From Email is not configured in your .env file."⟩

/-- User row fields consulted by the crisis paths.  A NULL column and an empty
string are conflated: Python only ever tests them for truthiness, which
coincides for both. -/
structure UserRec where
  id : Nat
  username : String
  email : String
  emergencyContact : String
deriving DecidableEq

/-- Recipient resolution of the UI crisis bypass (`main_ui.py` lines
211-215): take the emergency contact whenever it is truthy, else the account
email, with no syntactic validation; the empty string models an unresolved
recipient. -/
def ui_resolve_recipient (u : UserRec) : String :=
  if u.emergencyContact ≠ "" then u.emergencyContact else u.email

/-- Observable outcome of the UI crisis bypass block. -/
structure BypassResult where
  alertCreated : Bool
  recipient : Option String
  crisisError : Option String
  reply : String
deriving DecidableEq

/-- Fixed calm, resource-pointing reply of the crisis bypass. -/
def crisis_reply_message : String :=
  "It sounds like you are in distress. An alert has been dispatched to your emergency contact. Please reach out to a trusted person or a crisis hotline immediately."

/-- Operator message stored when no recipient at all can be resolved. -/
def no_recipient_error : String :=
  "FINAL ERROR: No emergency contact OR primary email could be found for this user. Cannot send alert."

/-- Crisis bypass block of `render_main_ui` (`main_ui.py` lines 203-233),
entered when `contains_crisis_keywords` matched.  Note that `create_alert` is
invoked only inside the truthy-recipient branch of the source, and that the
chat reply appended is the fixed calm message in both branches. -/
def crisis_bypass (u : UserRec) (emailConfigured : Bool) (sendgrid : EmailResult) : BypassResult :=
  let toEmail := ui_resolve_recipient u
  if toEmail ≠ "" then
    let res := send_email emailConfigured sendgrid toEmail
    ⟨true, some toEmail,
     if res.ok then none
     else some ("The send_email function failed. Reason: " ++ res.errorText),
     crisis_reply_message⟩
  else
    ⟨false, none, some no_recipient_error, crisis_reply_message⟩

/-- Recipient resolution of tool_send_alert (`llm_tools.py` lines 264-277):
strip both candidate addresses, prefer the emergency contact only when it
passes the email regex, else fall back to the account email under the same
test, else no recipient. -/
def tool_resolve_recipient (u : UserRec) : Option String :=
  let ec := if u.emergencyContact ≠ "" then pyStrip u.emergencyContact else ""
  let ue := if u.email ≠ "" then pyStrip u.email else ""
  if ec ≠ "" ∧ looks_like_email ec = true then some ec
  else if ue ≠ "" ∧ looks_like_email ue = true then some ue
  else none

example :
    crisis_bypass ⟨1, "alice", "", ""⟩ true ⟨true, ""⟩ =
      ⟨false, none, some no_recipient_error, crisis_reply_message⟩ := by decide
example :
    tool_resolve_recipient ⟨2, "bob", "bob@example.com", "555-1234"⟩ =
      some "bob@example.com" := by decide
example :
    (crisis_bypass ⟨2, "bob", "bob@example.com", "555-1234"⟩ true ⟨true, ""⟩).recipient =
      some "555-1234" := by decide

/-- estimate_tokens from `render_main_ui`: `max(1, int(len(text)/4))` with 0
for empty text. -/
def estimate_tokens (text : String) : Nat :=
  if text = "" then 0 else max 1 (text.length / 4)

/-- One chat-history entry as used by the dispatcher (role and content). -/
structure Msg where
  role : String
  content : String
deriving DecidableEq

/-- The transcript line built for one history entry. -/
def histLine (m : Msg) : String :=
  (if m.role = "user" then "Human" else "AI") ++ ": " ++ m.content

/-- Loop body of trim_history_by_tokens: walk the history newest first,
stopping as soon as the token budget would be exceeded; prepending to the
accumulator restores chronological order (the source appends and reverses). -/
def trimGo (maxTokens : Nat) : List Msg → Nat → List String → List String
  | [], _, acc => acc
  | m :: rest, total, acc =>
    let line := histLine m
    let t := estimate_tokens line
    if maxTokens < total + t then acc
    else trimGo maxTokens rest (total + t) (line :: acc)

/-- trim_history_by_tokens from `render_main_ui`. -/
def trim_history_by_tokens (history : List Msg) (maxTokens : Nat) : String :=
  String.intercalate "\n" (trimGo maxTokens history.reverse 0 [])

/-- The byte string fed to SHA-256 by make_cache_key: the three components
joined by the literal separator `||`. -/
def make_cache_key_input (agentLabel userMsg contextText : String) : String :=
  agentLabel ++ "||" ++ userMsg ++ "||" ++ contextText

/-- make_cache_key from `render_main_ui`, with the SHA-256 digest abstracted
as a function parameter `sha` applied to the exact hashed byte string. -/
def make_cache_key (sha : String → String) (agentLabel userMsg contextText : String) : String :=
  sha (make_cache_key_input agentLabel userMsg contextText)

/-- Session response cache: key to (reply, creation time); insertion prepends,
lookup takes the first binding, matching dict assignment and `.get`. -/
abbrev Cache : Type := List (String × (String × Nat))

deriving instance DecidableEq for Except

/-- Dictionary read `response_cache.get(key)`. -/
def cacheGet (c : Cache) (k : String) : Option (String × Nat) := List.lookup k c

/-- Dictionary write `response_cache[key] = value`. -/
def cachePut (c : Cache) (k : String) (v : String × Nat) : Cache := (k, v) :: c

/-- MAX_RETRIES from `render_main_ui`. -/
def MAX_RETRIES : Nat := 3

/-- Rate-limit classifier of the retry loop: pattern match on the lowered
error description. -/
def is_rate_limit_error (errText : String) : Bool :=
  pyContains "rate" errText &&
    (pyContains "limit" errText || pyContains "rate_limit" errText ||
      pyContains "rate-limit" errText)

/-- Authentication-failure classifier of the retry loop. -/
def is_auth_error (errText : String) : Bool :=
  pyContains "invalid api key" errText || pyContains "invalid_api_key" errText ||
    pyContains "unauthorized" errText || pyContains "authenticationerror" errText ||
    pyContains "authentication error" errText

/-- Apology string assigned on the final exhausted rate-limited attempt
(`main_ui.py` line 311).  In the source this assignment is dead: control then
falls through past the authentication check to the unconditional `raise`. -/
def ratelimit_apology : String :=
  "I\x27m having trouble accessing the language model right now. Please try again shortly."

/-- Configuration-error reply returned on an authentication failure. -/
def auth_config_message : String :=
  "I\x27m temporarily unable to access the language model due to configuration. Please notify the administrator or check the API keys."

/-- Outcome of the retry loop.  `response` is `Except.error e` when the loop
re-raises the exception `e`; `Except.ok none` is the (unreachable) fall-off
case where the loop ends with `response` still `None`.  `succeeded` records
whether the in-loop cache write on agent success executed. -/
structure RetryResult where
  response : Except String (Option String)
  delays : List Nat
  attemptsUsed : Nat
  succeeded : Bool
deriving DecidableEq

/-- Retry loop of `render_main_ui` (lines 299-326) over the remaining attempt
numbers.  `oracle n` is the outcome of `agent.run` on attempt `n`.  On a
rate-limited error before the last attempt: sleep `backoff`, double it, and
continue.  On the last attempt the source assigns the apology but does not
break, so control reaches the authentication check and then the bare
`raise`.  An authentication error breaks with the configuration message; any
other error is re-raised. -/
def retry_go (oracle : Nat → Except String String) :
    List Nat → Nat → List Nat → Nat → RetryResult
  | [], _, acc, used => ⟨Except.ok none, acc.reverse, used, false⟩
  | attempt :: rest, backoff, acc, used =>
    match oracle attempt with
    | Except.ok r => ⟨Except.ok (some r), acc.reverse, used + 1, true⟩
    | Except.error e =>
      let errText := pyLower e
      if is_rate_limit_error errText then
        if attempt = MAX_RETRIES then
          if is_auth_error errText then
            ⟨Except.ok (some auth_config_message), acc.reverse, used + 1, false⟩
          else ⟨Except.error e, acc.reverse, used + 1, false⟩
        else retry_go oracle rest (backoff * 2) (backoff :: acc) (used + 1)
      else if is_auth_error errText then
        ⟨Except.ok (some auth_config_message), acc.reverse, used + 1, false⟩
      else ⟨Except.error e, acc.reverse, used + 1, false⟩

/-- The attempt numbers `range(1, MAX_RETRIES + 1)`. -/
def attemptNumbers : List Nat := (List.range MAX_RETRIES).map (fun i => i + 1)

/-- The full agent invocation with retry, from an initial backoff of 1. -/
def agent_invoke_with_retry (oracle : Nat → Except String String) : RetryResult :=
  retry_go oracle attemptNumbers 1 [] 0

example :
    agent_invoke_with_retry (fun n => if n ≤ 2 then Except.error "Rate limit reached" else Except.ok "third answer") =
      ⟨Except.ok (some "third answer"), [1, 2], 3, true⟩ := by decide
example :
    agent_invoke_with_retry (fun _ => Except.error "Rate limit reached") =
      ⟨Except.error "Rate limit reached", [1, 2], 3, false⟩ := by decide
example :
    agent_invoke_with_retry (fun _ => Except.error "Invalid API Key") =
      ⟨Except.ok (some auth_config_message), [], 1, false⟩ := by decide
example :
    agent_invoke_with_retry (fun _ => Except.error "boom") =
      ⟨Except.error "boom", [], 1, false⟩ := by decide

/-- Observable outcome of the cache-checked dispatch. -/
structure DispatchResult where
  response : Except String (Option String)
  cacheOut : Cache
  agentCalls : Nat
  delays : List Nat
  cacheHit : Bool
  persisted : Bool
deriving DecidableEq

/-- Cache-checked dispatch of `render_main_ui` (lines 265-330): compute the
key, serve a cache entry younger than 300 seconds without invoking the agent,
otherwise run the retry loop and on raw agent success store the reply at the
current clock.  `persisted` records whether `log_interaction` runs (it is
skipped exactly when the loop re-raises). -/
def dispatch_with_cache (sha : String → String) (cache : Cache) (now : Nat)
    (agentLabel userMsg contextText : String)
    (oracle : Nat → Except String String) : DispatchResult :=
  let key := make_cache_key sha agentLabel userMsg contextText
  let fresh : Option String :=
    match cacheGet cache key with
    | some (r, ts) => if now - ts < 300 then some r else none
    | none => none
  match fresh with
  | some r => ⟨Except.ok (some r), cache, 0, [], true, true⟩
  | none =>
    let lr := agent_invoke_with_retry oracle
    let cacheOut :=
      match lr.response, lr.succeeded with
      | Except.ok (some r), true => cachePut cache key (r, now)
      | _, _ => cache
    let persisted :=
      match lr.response with
      | Except.ok _ => true
      | Except.error _ => false
    ⟨lr.response, cacheOut, lr.attemptsUsed, lr.delays, false, persisted⟩

/-- Keys of the AGENTS dictionary built by `get_agents` in `agents.py`. -/
def AGENT_KEYS : List String := ["mood", "therapy", "routine", "crisis"]

/-- The read `AGENTS.get(agent_label, AGENTS["mood"])`: which agent object actually
handles the turn. -/
def agent_for_label (label : String) : String :=
  if label ∈ AGENT_KEYS then label else "mood"

/-- The stable user-identity line prepended to the router input. -/
def user_ident_line (u : UserRec) : String :=
  "User-Identifier: " ++ u.username ++ " (id:" ++ toString u.id ++ ")"

/-- Best-effort mood logging of `render_main_ui` (lines 238-247): on a
successful extractor call whose stripped, lowered output is truthy and not
"none", a mood entry (mood, estimated intensity) is written; any failure is
swallowed. -/
def mood_log_of_turn (moodRemote : Except String String) (userMsg : String) :
    Option (String × Nat) :=
  match moodRemote with
  | Except.error _ => none
  | Except.ok raw =>
    let extracted := pyLower (pyStrip raw)
    if extracted ≠ "" ∧ extracted ≠ "none" then
      some (extracted, estimate_intensity_from_text userMsg)
    else none

/-- Observable outcome of one chat turn of `render_main_ui`. -/
structure TurnResult where
  bypass : Option BypassResult
  moodLogged : Option (String × Nat)
  agentLabel : Option String
  dispatchedAgent : Option String
  routerRemoteInvoked : Bool
  cacheLookups : Nat
  agentCalls : Nat
  response : Except String (Option String)
  cacheOut : Cache
deriving DecidableEq

/-- One chat turn of `render_main_ui` (lines 197-333).  The crisis keyword
check on the raw message gates first: a match runs the bypass block and
`st.rerun()` ends the turn, so the normal flow (mood extraction, routing,
cache lookup, agent invocation, persistence) never executes and the cache is
untouched.  Otherwise the message is appended to the history, the trimmed
context and router input are built, the router picks a label, and the
cache-checked dispatch runs. -/
def process_turn (sha : String → String) (cache : Cache) (now : Nat) (u : UserRec)
    (history : List Msg) (userMsg : String)
    (moodRemote routerRemote : Except String String)
    (oracle : Nat → Except String String)
    (emailConfigured : Bool) (sendgrid : EmailResult) : TurnResult :=
  if contains_crisis_keywords userMsg then
    let b := crisis_bypass u emailConfigured sendgrid
    ⟨some b, none, none, none, false, 0, 0, Except.ok (some b.reply), cache⟩
  else
    let historyWithMsg := history ++ [⟨"user", userMsg⟩]
    let contextText := trim_history_by_tokens historyWithMsg 800
    let routerInput := user_ident_line u ++ "\n" ++ contextText ++ "\nHuman: " ++ userMsg
    let r := routerRun routerRemote routerInput
    let d := dispatch_with_cache sha cache now r.label userMsg contextText oracle
    ⟨none, mood_log_of_turn moodRemote userMsg, some r.label,
     some (agent_for_label r.label), r.remoteInvoked, 1, d.agentCalls, d.response,
     d.cacheOut⟩

example :
    (process_turn id [] 0 ⟨1, "alice", "a@b.co", ""⟩ [] "hello"
        (Except.ok "None") (Except.ok "crisis") (fun _ => Except.ok "resp")
        true ⟨true, ""⟩).agentLabel = some "crisis" := by decide
example :
    (process_turn id [] 0 ⟨1, "alice", "a@b.co", ""⟩ [] "hello"
        (Except.ok "None") (Except.ok "crisis") (fun _ => Except.ok "resp")
        true ⟨true, ""⟩).agentCalls = 1 := by decide
example :
    (process_turn id [] 0 ⟨1, "alice", "a@b.co", ""⟩ [] "I want to end my life"
        (Except.ok "None") (Except.ok "mood") (fun _ => Except.ok "resp")
        true ⟨true, ""⟩).agentCalls = 0 := by decide

/-! Helper lemmas shared by the claim theorems. -/

lemma string_eq_of_data {a b : String} (h : a.data = b.data) : a = b := by
  cases a; cases b; exact congrArg String.mk h

lemma looks_like_email_ne_empty {s : String} (h : looks_like_email s = true) :
    s ≠ "" := by
  intro he
  rw [he] at h
  exact absurd h (by decide)

lemma append_pipe_sep_inj {x1 x2 r1 r2 : List Char}
    (h1 : '|' ∉ x1) (h2 : '|' ∉ x2)
    (h : x1 ++ '|' :: r1 = x2 ++ '|' :: r2) : x1 = x2 ∧ r1 = r2 := by
  induction x1 generalizing x2 with
  | nil =>
    cases x2 with
    | nil => simpa using h
    | cons b t =>
      rw [List.nil_append, List.cons_append] at h
      injection h with hb _
      exact absurd (hb ▸ List.mem_cons_self b t) h2
  | cons a t ih =>
    cases x2 with
    | nil =>
      rw [List.nil_append, List.cons_append] at h
      injection h with hb _
      exact absurd (hb ▸ List.mem_cons_self a t) h1
    | cons b t2 =>
      rw [List.cons_append, List.cons_append] at h
      injection h with hb ht
      have hrec := ih (fun hm => h1 (List.mem_cons_of_mem a hm))
        (fun hm => h2 (List.mem_cons_of_mem b hm)) ht
      exact ⟨by rw [hb, hrec.1], hrec.2⟩

lemma attemptNumbers_eq : attemptNumbers = [1, 2, 3] := rfl

lemma retry_first_ok {oracle : Nat → Except String String} {r : String}
    (h1 : oracle 1 = Except.ok r) :
    agent_invoke_with_retry oracle = ⟨Except.ok (some r), [], 1, true⟩ := by
  rw [agent_invoke_with_retry, attemptNumbers_eq, retry_go, h1]
  rfl

lemma dispatch_miss_ok (sha : String → String) (cache : Cache) (now : Nat)
    (label msg ctx : String) (oracle : Nat → Except String String) (r : String)
    (hmiss : cacheGet cache (make_cache_key sha label msg ctx) = none)
    (h1 : oracle 1 = Except.ok r) :
    dispatch_with_cache sha cache now label msg ctx oracle =
      ⟨Except.ok (some r),
       cachePut cache (make_cache_key sha label msg ctx) (r, now), 1, [], false, true⟩ := by
  rw [dispatch_with_cache, hmiss, retry_first_ok h1]

lemma dispatch_hit (sha : String → String) (cache : Cache) (now : Nat)
    (label msg ctx : String) (oracle : Nat → Except String String)
    (r : String) (ts : Nat)
    (hhit : cacheGet cache (make_cache_key sha label msg ctx) = some (r, ts))
    (hfresh : now - ts < 300) :
    dispatch_with_cache sha cache now label msg ctx oracle =
      ⟨Except.ok (some r), cache, 0, [], true, true⟩ := by
  rw [dispatch_with_cache, hhit]
  simp [hfresh]

lemma dispatch_stale (sha : String → String) (cache : Cache) (now : Nat)
    (label msg ctx : String) (oracle : Nat → Except String String)
    (r r2 : String) (ts : Nat)
    (hhit : cacheGet cache (make_cache_key sha label msg ctx) = some (r, ts))
    (hstale : ¬ now - ts < 300)
    (h1 : oracle 1 = Except.ok r2) :
    dispatch_with_cache sha cache now label msg ctx oracle =
      ⟨Except.ok (some r2),
       cachePut cache (make_cache_key sha label msg ctx) (r2, now), 1, [], false, true⟩ := by
  rw [dispatch_with_cache, hhit]
  simp only [if_neg hstale]
  rw [retry_first_ok h1]

lemma cacheGet_put_same (cache : Cache) (k : String) (v : String × Nat) :
    cacheGet (cachePut cache k v) k = some v := by
  simp [cacheGet, cachePut, List.lookup]

lemma normalize_label_mem (out : String) : normalize_label out ∈ ALLOWED_LABELS := by
  simp only [normalize_label]
  split
  · assumption
  · decide

/-! Claim theorems. -/

/-- C4: for every user input whose text contains a crisis keyword
(case-insensitively), the router returns the label "crisis" and does not
invoke the remote routing call, whatever that call would have produced. -/
theorem crisis_keyword_short_circuits_router
    (remote : Except String String) (input : String)
    (h : contains_crisis_keywords input = true) :
    routerRun remote input = ⟨"crisis", false⟩ := by
  simp [routerRun, h]

/-- Witness for C4 at a concrete crisis input and a remote call that would
have said "therapy". -/
theorem crisis_keyword_short_circuits_router_witness :
    contains_crisis_keywords "some days I want to DIE" = true ∧
    routerRun (Except.ok "therapy") "some days I want to DIE" = ⟨"crisis", false⟩ :=
  ⟨by decide,
   crisis_keyword_short_circuits_router (Except.ok "therapy")
     "some days I want to DIE" (by decide)⟩

/-- C10: for non-crisis input, a failed remote routing call yields "mood"; a
remote label that normalizes (strip, lowercase, drop periods) outside the
closed set yields "mood"; and the router output is always one of the four
allowed labels. -/
theorem router_failure_and_outset_normalize_to_mood :
    (∀ (input e : String), contains_crisis_keywords input = false →
        routerRun (Except.error e) input = ⟨"mood", true⟩) ∧
    (∀ (input out : String), contains_crisis_keywords input = false →
        pyRemoveDots (pyLower (pyStrip out)) ∉ ALLOWED_LABELS →
        routerRun (Except.ok out) input = ⟨"mood", true⟩) ∧
    (∀ (remote : Except String String) (input : String),
        (routerRun remote input).label ∈ ALLOWED_LABELS) := by
  refine ⟨?_, ?_, ?_⟩
  · intro input e h
    simp [routerRun, h]
  · intro input out h hn
    simp [routerRun, h, normalize_label, hn]
  · intro remote input
    unfold routerRun
    split
    · decide
    · cases remote with
      | ok out => exact normalize_label_mem out
      | error e => show ("mood" : String) ∈ ALLOWED_LABELS; decide

/-- Witness for C10 at concrete inputs: a failing call, an out-of-set label,
and a membership instance. -/
theorem router_failure_and_outset_normalize_to_mood_witness :
    routerRun (Except.error "timeout") "hello" = ⟨"mood", true⟩ ∧
    routerRun (Except.ok "banana") "hello" = ⟨"mood", true⟩ ∧
    (routerRun (Except.ok " Therapy. ") "hello").label ∈ ALLOWED_LABELS :=
  ⟨router_failure_and_outset_normalize_to_mood.1 "hello" "timeout" (by decide),
   router_failure_and_outset_normalize_to_mood.2.1 "hello" "banana" (by decide) (by decide),
   router_failure_and_outset_normalize_to_mood.2.2 (Except.ok " Therapy. ") "hello"⟩

/-- C9: the intensity heuristic is a pure function of the text returning a
value in [1,10]; a standalone digit 1-9 or literal 10 found by the scan is
used directly (clamped); and the two specified examples evaluate to 10 and 3. -/
theorem intensity_heuristic_spec :
    (∀ t : String,
        1 ≤ estimate_intensity_from_text t ∧ estimate_intensity_from_text t ≤ 10) ∧
    (∀ (t : String) (v : Nat),
        scan_standalone_num none (pyLower t).data = some v →
        estimate_intensity_from_text t = max 1 (min 10 v)) ∧
    estimate_intensity_from_text "I am extremely anxious!!!" = 10 ∧
    estimate_intensity_from_text "feeling a little calm" = 3 := by
  refine ⟨?_, ?_, by decide, by decide⟩
  · intro t
    by_cases ht : t = ""
    · simp [estimate_intensity_from_text, ht]
    · cases hs : scan_standalone_num none (pyLower t).data with
      | none =>
        simp only [estimate_intensity_from_text, ht, if_false, hs]
        omega
      | some v =>
        simp only [estimate_intensity_from_text, ht, if_false, hs]
        omega
  · intro t v h
    by_cases ht : t = ""
    · rw [ht] at h
      rw [show scan_standalone_num none (pyLower "").data = none from rfl] at h
      cases h
    · simp only [estimate_intensity_from_text, ht, if_false, h]

/-- Witness for C9 at concrete texts, including a standalone digit. -/
theorem intensity_heuristic_spec_witness :
    (1 ≤ estimate_intensity_from_text "stress level 7 today" ∧
      estimate_intensity_from_text "stress level 7 today" ≤ 10) ∧
    estimate_intensity_from_text "stress level 7 today" = max 1 (min 10 7) :=
  ⟨intensity_heuristic_spec.1 "stress level 7 today",
   intensity_heuristic_spec.2.1 "stress level 7 today" 7 (by decide)⟩

/-- C1: evaluation of the crisis bypass at a crisis-triggering turn of a user
with neither an emergency contact nor an account email.  The reply appended
to the chat is the fixed calm message, but `alertCreated = false`: the source
calls `create_alert` only inside the truthy-recipient branch, so no Alert
record is persisted, diverging from the documented guarantee that the alert
record survives total delivery failure (the guarantee `tool_send_alert`
implements by creating the alert before resolving a recipient). -/
theorem crisis_bypass_no_recipient_evaluation :
    contains_crisis_keywords "I want to end my life" = true ∧
    crisis_bypass ⟨7, "dana", "", ""⟩ true ⟨true, ""⟩ =
      ⟨false, none, some no_recipient_error, crisis_reply_message⟩ ∧
    (process_turn id [] 0 ⟨7, "dana", "", ""⟩ [] "I want to end my life"
        (Except.ok "None") (Except.ok "mood") (fun _ => Except.ok "x")
        true ⟨true, ""⟩).bypass =
      some ⟨false, none, some no_recipient_error, crisis_reply_message⟩ ∧
    (process_turn id [] 0 ⟨7, "dana", "", ""⟩ [] "I want to end my life"
        (Except.ok "None") (Except.ok "mood") (fun _ => Except.ok "x")
        true ⟨true, ""⟩).response =
      Except.ok (some crisis_reply_message) := by decide

/-- C2 counterexample: a turn with no crisis keyword that the router labels
"crisis" runs the full normal dispatch path — the cache is consulted, the
agent is invoked, and the cache is written — contradicting the claimed
invariant for router-classified crisis turns. -/
theorem router_crisis_label_counterexample :
    contains_crisis_keywords "hello" = false ∧
    (process_turn id [] 0 ⟨1, "alice", "a@b.co", ""⟩ [] "hello"
        (Except.ok "None") (Except.ok "crisis") (fun _ => Except.ok "resp")
        true ⟨true, ""⟩).agentLabel = some "crisis" ∧
    (process_turn id [] 0 ⟨1, "alice", "a@b.co", ""⟩ [] "hello"
        (Except.ok "None") (Except.ok "crisis") (fun _ => Except.ok "resp")
        true ⟨true, ""⟩).dispatchedAgent = some "crisis" ∧
    (process_turn id [] 0 ⟨1, "alice", "a@b.co", ""⟩ [] "hello"
        (Except.ok "None") (Except.ok "crisis") (fun _ => Except.ok "resp")
        true ⟨true, ""⟩).cacheLookups = 1 ∧
    (process_turn id [] 0 ⟨1, "alice", "a@b.co", ""⟩ [] "hello"
        (Except.ok "None") (Except.ok "crisis") (fun _ => Except.ok "resp")
        true ⟨true, ""⟩).agentCalls = 1 ∧
    (process_turn id [] 0 ⟨1, "alice", "a@b.co", ""⟩ [] "hello"
        (Except.ok "None") (Except.ok "crisis") (fun _ => Except.ok "resp")
        true ⟨true, ""⟩).cacheOut ≠ ([] : Cache) := by decide

/-- C2 amended: a turn flagged by the crisis keyword detector never reaches
the normal dispatch/cache path — no cache lookup, no cache write, no agent
invocation, and the router remote call is not made; the entire turn outcome
is exactly that of the bypass block. -/
theorem keyword_crisis_never_dispatches
    (sha : String → String) (cache : Cache) (now : Nat) (u : UserRec)
    (history : List Msg) (userMsg : String)
    (moodRemote routerRemote : Except String String)
    (oracle : Nat → Except String String)
    (emailConfigured : Bool) (sendgrid : EmailResult)
    (h : contains_crisis_keywords userMsg = true) :
    process_turn sha cache now u history userMsg moodRemote routerRemote oracle
        emailConfigured sendgrid =
      ⟨some (crisis_bypass u emailConfigured sendgrid), none, none, none, false, 0, 0,
       Except.ok (some (crisis_bypass u emailConfigured sendgrid).reply), cache⟩ := by
  simp [process_turn, h]

/-- Witness for the amended C2 at a concrete crisis-keyword turn. -/
theorem keyword_crisis_never_dispatches_witness :
    process_turn id [("k", ("v", 0))] 5 ⟨1, "alice", "a@b.co", ""⟩ []
        "I think about suicide" (Except.ok "sad") (Except.ok "therapy")
        (fun _ => Except.ok "resp") true ⟨true, ""⟩ =
      ⟨some (crisis_bypass ⟨1, "alice", "a@b.co", ""⟩ true ⟨true, ""⟩),
       none, none, none, false, 0, 0,
       Except.ok (some (crisis_bypass ⟨1, "alice", "a@b.co", ""⟩ true ⟨true, ""⟩).reply),
       [("k", ("v", 0))]⟩ :=
  keyword_crisis_never_dispatches id [("k", ("v", 0))] 5 ⟨1, "alice", "a@b.co", ""⟩ []
    "I think about suicide" (Except.ok "sad") (Except.ok "therapy")
    (fun _ => Except.ok "resp") true ⟨true, ""⟩ (by decide)

/-- C3 counterexample: for a user whose emergency contact is a phone number
and whose account email is valid, the UI bypass addresses the notification to
the phone number, not to the account email; delivery then fails on the
recipient validation inside `send_email` and the failure is stored as the
crisis error. -/
theorem ui_bypass_no_validation_counterexample :
    contains_crisis_keywords "I plan to hurt myself" = true ∧
    looks_like_email "555-1234" = false ∧
    (crisis_bypass ⟨2, "bob", "bob@example.com", "555-1234"⟩ true ⟨true, ""⟩).recipient =
      some "555-1234" ∧
    (crisis_bypass ⟨2, "bob", "bob@example.com", "555-1234"⟩ true ⟨true, ""⟩).recipient ≠
      some "bob@example.com" ∧
    (crisis_bypass ⟨2, "bob", "bob@example.com", "555-1234"⟩ true ⟨true, ""⟩).crisisError =
      some "The send_email function failed. Reason: Recipient does not appear to be an email address." := by
  decide

/-- C3 amended: the UI bypass prefers a non-empty emergency contact with no
syntactic validation, falling back to the account email only when the contact
is empty; the syntactic-validity preference of the claim holds in the
send-alert tool, where a non-email emergency contact is passed over in favor
of a regex-valid account email. -/
theorem recipient_resolution_amended :
    (∀ u : UserRec, u.emergencyContact ≠ "" →
        ui_resolve_recipient u = u.emergencyContact) ∧
    (∀ u : UserRec, u.emergencyContact = "" →
        ui_resolve_recipient u = u.email) ∧
    (∀ u : UserRec,
        looks_like_email (pyStrip u.emergencyContact) = false →
        looks_like_email (pyStrip u.email) = true →
        tool_resolve_recipient u = some (pyStrip u.email)) ∧
    (∀ u : UserRec,
        u.emergencyContact ≠ "" →
        looks_like_email (pyStrip u.emergencyContact) = true →
        pyStrip u.emergencyContact ≠ "" →
        tool_resolve_recipient u = some (pyStrip u.emergencyContact)) := by
  refine ⟨?_, ?_, ?_, ?_⟩
  · intro u h
    simp [ui_resolve_recipient, h]
  · intro u h
    simp [ui_resolve_recipient, h]
  · intro u hec hue
    by_cases hm : u.email = ""
    · rw [hm] at hue
      exact absurd hue (by decide)
    · have hne : pyStrip u.email ≠ "" := looks_like_email_ne_empty hue
      by_cases he : u.emergencyContact = ""
      · simp [tool_resolve_recipient, he, hm, hne, hue]
      · simp [tool_resolve_recipient, he, hm, hne, hue, hec]
  · intro u he hv hs
    simp [tool_resolve_recipient, he, hv, hs]

/-- Witness for the amended C3 at a concrete phone-number contact. -/
theorem recipient_resolution_amended_witness :
    ui_resolve_recipient ⟨3, "carol", "carol@example.com", "555-1234"⟩ = "555-1234" ∧
    ui_resolve_recipient ⟨4, "erin", "erin@example.com", ""⟩ = "erin@example.com" ∧
    tool_resolve_recipient ⟨3, "carol", "carol@example.com", "555-1234"⟩ =
      some (pyStrip "carol@example.com") ∧
    tool_resolve_recipient ⟨5, "frank", "frank@example.com", "next@door.org"⟩ =
      some (pyStrip "next@door.org") :=
  ⟨recipient_resolution_amended.1 ⟨3, "carol", "carol@example.com", "555-1234"⟩ (by decide),
   recipient_resolution_amended.2.1 ⟨4, "erin", "erin@example.com", ""⟩ (by decide),
   recipient_resolution_amended.2.2.1 ⟨3, "carol", "carol@example.com", "555-1234"⟩
     (by decide) (by decide),
   recipient_resolution_amended.2.2.2 ⟨5, "frank", "frank@example.com", "next@door.org"⟩
     (by decide) (by decide) (by decide)⟩

/-- C5: starting from an empty cache, two dispatches of the identical
(agent label, raw message, trimmed context) triple invoke the upstream agent
exactly once when the second comes within 300 seconds — the second is served
from the cache with the first reply — while after more than 300 seconds the
cache is bypassed and the agent is invoked again. -/
theorem cache_round_trip
    (sha : String → String) (label msg ctx : String) (t1 t2 : Nat)
    (o1 o2 : Nat → Except String String) (r1 r2 : String)
    (h1 : o1 1 = Except.ok r1) (h2 : o2 1 = Except.ok r2) :
    ((dispatch_with_cache sha [] t1 label msg ctx o1).agentCalls = 1 ∧
      (dispatch_with_cache sha [] t1 label msg ctx o1).response = Except.ok (some r1)) ∧
    (t2 - t1 < 300 →
      (dispatch_with_cache sha (dispatch_with_cache sha [] t1 label msg ctx o1).cacheOut
          t2 label msg ctx o2).agentCalls = 0 ∧
      (dispatch_with_cache sha (dispatch_with_cache sha [] t1 label msg ctx o1).cacheOut
          t2 label msg ctx o2).cacheHit = true ∧
      (dispatch_with_cache sha (dispatch_with_cache sha [] t1 label msg ctx o1).cacheOut
          t2 label msg ctx o2).response = Except.ok (some r1)) ∧
    (300 < t2 - t1 →
      (dispatch_with_cache sha (dispatch_with_cache sha [] t1 label msg ctx o1).cacheOut
          t2 label msg ctx o2).agentCalls = 1 ∧
      (dispatch_with_cache sha (dispatch_with_cache sha [] t1 label msg ctx o1).cacheOut
          t2 label msg ctx o2).cacheHit = false ∧
      (dispatch_with_cache sha (dispatch_with_cache sha [] t1 label msg ctx o1).cacheOut
          t2 label msg ctx o2).response = Except.ok (some r2)) := by
  have hmiss : cacheGet ([] : Cache) (make_cache_key sha label msg ctx) = none := rfl
  have hd1 := dispatch_miss_ok sha [] t1 label msg ctx o1 r1 hmiss h1
  have hget : cacheGet (dispatch_with_cache sha [] t1 label msg ctx o1).cacheOut
      (make_cache_key sha label msg ctx) = some (r1, t1) := by
    rw [hd1]
    exact cacheGet_put_same [] (make_cache_key sha label msg ctx) (r1, t1)
  refine ⟨by rw [hd1]; exact ⟨rfl, rfl⟩, ?_, ?_⟩
  · intro hfresh
    have := dispatch_hit sha (dispatch_with_cache sha [] t1 label msg ctx o1).cacheOut
      t2 label msg ctx o2 r1 t1 hget hfresh
    rw [this]
    exact ⟨rfl, rfl, rfl⟩
  · intro hstale
    have hns : ¬ t2 - t1 < 300 := by omega
    have := dispatch_stale sha (dispatch_with_cache sha [] t1 label msg ctx o1).cacheOut
      t2 label msg ctx o2 r1 r2 t1 hget hns h2
    rw [this]
    exact ⟨rfl, rfl, rfl⟩

/-- Witness for C5: a fresh hit at 10 seconds and a stale re-invocation at
301 seconds, on concrete oracles. -/
theorem cache_round_trip_witness :
    ((dispatch_with_cache id [] 0 "mood" "hi" "ctx" (fun _ => Except.ok "r1")).agentCalls = 1 ∧
      (dispatch_with_cache id [] 0 "mood" "hi" "ctx" (fun _ => Except.ok "r1")).response =
        Except.ok (some "r1")) ∧
    ((dispatch_with_cache id
        (dispatch_with_cache id [] 0 "mood" "hi" "ctx" (fun _ => Except.ok "r1")).cacheOut
        10 "mood" "hi" "ctx" (fun _ => Except.ok "r2")).agentCalls = 0 ∧
      (dispatch_with_cache id
        (dispatch_with_cache id [] 0 "mood" "hi" "ctx" (fun _ => Except.ok "r1")).cacheOut
        10 "mood" "hi" "ctx" (fun _ => Except.ok "r2")).cacheHit = true ∧
      (dispatch_with_cache id
        (dispatch_with_cache id [] 0 "mood" "hi" "ctx" (fun _ => Except.ok "r1")).cacheOut
        10 "mood" "hi" "ctx" (fun _ => Except.ok "r2")).response = Except.ok (some "r1")) ∧
    ((dispatch_with_cache id
        (dispatch_with_cache id [] 0 "mood" "hi" "ctx" (fun _ => Except.ok "r1")).cacheOut
        301 "mood" "hi" "ctx" (fun _ => Except.ok "r2")).agentCalls = 1 ∧
      (dispatch_with_cache id
        (dispatch_with_cache id [] 0 "mood" "hi" "ctx" (fun _ => Except.ok "r1")).cacheOut
        301 "mood" "hi" "ctx" (fun _ => Except.ok "r2")).cacheHit = false ∧
      (dispatch_with_cache id
        (dispatch_with_cache id [] 0 "mood" "hi" "ctx" (fun _ => Except.ok "r1")).cacheOut
        301 "mood" "hi" "ctx" (fun _ => Except.ok "r2")).response = Except.ok (some "r2")) :=
  ⟨(cache_round_trip id "mood" "hi" "ctx" 0 10 (fun _ => Except.ok "r1")
      (fun _ => Except.ok "r2") "r1" "r2" rfl rfl).1,
   (cache_round_trip id "mood" "hi" "ctx" 0 10 (fun _ => Except.ok "r1")
      (fun _ => Except.ok "r2") "r1" "r2" rfl rfl).2.1 (by decide),
   (cache_round_trip id "mood" "hi" "ctx" 0 301 (fun _ => Except.ok "r1")
      (fun _ => Except.ok "r2") "r1" "r2" rfl rfl).2.2 (by decide)⟩

/-- C6: evaluation of the retry loop on injected rate-limit errors.  With
failures on attempts 1 and 2 and success on attempt 3, the reply is the
attempt-3 result and the backoff delays are exactly 1 then 2 seconds.  With
rate-limit errors on all 3 attempts, however, the loop re-raises the third
exception — the apology assignment on line 311 of `main_ui.py` is dead
because control falls through to the unconditional `raise` — so the final
reply is not the apology and the turn ends without a persisted reply,
diverging from the documented no-exception degradation. -/
theorem rate_limit_retry_evaluation :
    agent_invoke_with_retry
        (fun n => if n ≤ 2 then Except.error "Rate limit reached" else Except.ok "third answer") =
      ⟨Except.ok (some "third answer"), [1, 2], 3, true⟩ ∧
    agent_invoke_with_retry (fun _ => Except.error "Rate limit reached") =
      ⟨Except.error "Rate limit reached", [1, 2], 3, false⟩ ∧
    (agent_invoke_with_retry (fun _ => Except.error "Rate limit reached")).response ≠
      Except.ok (some ratelimit_apology) ∧
    (dispatch_with_cache id [] 0 "mood" "hi" "ctx"
        (fun _ => Except.error "Rate limit reached")).persisted = false := by decide

/-- C7: an authentication-classified error on attempt 1 returns the fixed
configuration-error message immediately, with one attempt and no backoff
delay; an error classified as neither rate-limited nor authentication is not
retried and propagates, ending the turn with no cache write and no persisted
reply. -/
theorem auth_and_unknown_error_policy :
    (∀ (oracle : Nat → Except String String) (e : String),
        oracle 1 = Except.error e →
        is_rate_limit_error (pyLower e) = false →
        is_auth_error (pyLower e) = true →
        agent_invoke_with_retry oracle =
          ⟨Except.ok (some auth_config_message), [], 1, false⟩) ∧
    (∀ (sha : String → String) (now : Nat) (label msg ctx : String)
        (oracle : Nat → Except String String) (e : String),
        oracle 1 = Except.error e →
        is_rate_limit_error (pyLower e) = false →
        is_auth_error (pyLower e) = false →
        dispatch_with_cache sha [] now label msg ctx oracle =
          ⟨Except.error e, [], 1, [], false, false⟩) := by
  constructor
  · intro oracle e h hrate hauth
    rw [agent_invoke_with_retry, attemptNumbers_eq, retry_go, h]
    simp [hrate, hauth]
  · intro sha now label msg ctx oracle e h hrate hauth
    have hmiss : cacheGet ([] : Cache) (make_cache_key sha label msg ctx) = none := rfl
    rw [dispatch_with_cache, hmiss]
    rw [agent_invoke_with_retry, attemptNumbers_eq, retry_go, h]
    simp [hrate, hauth]

/-- Witness for C7 at a concrete authentication error and a concrete
unclassified error. -/
theorem auth_and_unknown_error_policy_witness :
    agent_invoke_with_retry (fun _ => Except.error "401 Unauthorized") =
      ⟨Except.ok (some auth_config_message), [], 1, false⟩ ∧
    dispatch_with_cache id [] 0 "mood" "hi" "ctx" (fun _ => Except.error "boom") =
      ⟨Except.error "boom", [], 1, [], false, false⟩ :=
  ⟨auth_and_unknown_error_policy.1 (fun _ => Except.error "401 Unauthorized")
      "401 Unauthorized" rfl (by decide) (by decide),
   auth_and_unknown_error_policy.2 id 0 "mood" "hi" "ctx"
      (fun _ => Except.error "boom") "boom" rfl (by decide) (by decide)⟩

/-- C8 counterexample: two distinct (agent, message, context) triples whose
serialized `agent||message||context` byte strings coincide, so the SHA-256
inputs — and hence the keys, under any hash function whatsoever — are equal
without any hash collision. -/
theorem cache_key_separator_collision :
    make_cache_key_input "a" "b||c" "d" = make_cache_key_input "a||b" "c" "d" ∧
    ¬("a" = "a||b" ∧ "b||c" = "c" ∧ "d" = "d") ∧
    make_cache_key id "a" "b||c" "d" = make_cache_key id "a||b" "c" "d" := by decide

/-- C8 amended: cache keys of distinct triples differ under any injective
(collision-free) hash, provided the agent label and raw message contain no
pipe character, so the `||` separators parse unambiguously; the production
agent labels satisfy this, while a component embedding `||` can alias
another triple. -/
theorem cache_key_injective_without_pipes
    (sha : String → String) (hsha : Function.Injective sha)
    (a1 m1 c1 a2 m2 c2 : String)
    (ha1 : '|' ∉ a1.data) (hm1 : '|' ∉ m1.data)
    (ha2 : '|' ∉ a2.data) (hm2 : '|' ∉ m2.data)
    (hne : ¬(a1 = a2 ∧ m1 = m2 ∧ c1 = c2)) :
    make_cache_key sha a1 m1 c1 ≠ make_cache_key sha a2 m2 c2 := by
  intro hkey
  have hinput := hsha hkey
  have hdata := congrArg String.data hinput
  simp only [make_cache_key_input, String.data_append, List.append_assoc] at hdata
  simp only [show ("||" : String).data = ['|', '|'] from rfl,
    List.cons_append, List.nil_append] at hdata
  obtain ⟨hae, htail⟩ := append_pipe_sep_inj ha1 ha2 hdata
  injection htail with _ htail2
  obtain ⟨hme, htail3⟩ := append_pipe_sep_inj hm1 hm2 htail2
  injection htail3 with _ hce
  exact hne ⟨string_eq_of_data hae, string_eq_of_data hme, string_eq_of_data hce⟩

/-- Witness for the amended C8: two concrete pipe-free triples differing only
in the agent label yield different keys under the injective identity hash. -/
theorem cache_key_injective_without_pipes_witness :
    make_cache_key id "mood" "hello" "ctx" ≠ make_cache_key id "therapy" "hello" "ctx" :=
  cache_key_injective_without_pipes id (fun _ _ h => h) "mood" "hello" "ctx"
    "therapy" "hello" "ctx" (by decide) (by decide) (by decide) (by decide) (by decide)
